import Mathlib

/-!
Verification of the result-ts library: a Result / SerializableResult
discriminated union with combinators (map, flatMap, fold, catch, serialize)
and adapter functions (tryCatch, flattenErrors, deserializeResult).

Sources embedded here are the current revision of the code:
types.ts (ErrorType, SerializableResult, producers, combinators) and
functions.ts (tryCatch, flattenErrors, deserializeResult).

Modelling conventions:
- A TypeScript optional field x?: string is an Option String field.
- The expression written in the source as: new Error().stack, which captures
  the current call stack, is modelled by an explicit String argument named
  cap supplied at each construction site (in every mainstream JS engine the
  stack of a freshly constructed Error is a string).
- Functions bound by buildFunctions close over the one underlying
  SerializableResult object; in the pure model a Result is identified with
  that underlying object, and each bound combinator is a function taking it
  as its first argument, exactly as the standalone source functions do.
-/

namespace ResultTS

/-- ErrorType from types.ts: the closed error-kind enumeration. -/
inductive ErrorType where
  | unexpected
  | userValidation
  | unauthorized
  | notFound
deriving DecidableEq, Repr

/-- statusFromErrorType from types.ts: the fixed kind-to-status table. -/
def statusFromErrorType : ErrorType → Nat
  | .unexpected => 503
  | .userValidation => 400
  | .unauthorized => 401
  | .notFound => 404

/-- SerializableResult from types.ts: the tagged union. The success variant
has fields data, message?, requestId?; the error variant has fields
errorType, message, stackTrace?, requestId?. -/
inductive SerializableResult (T : Type) where
  | success (data : T) (message : Option String) (requestId : Option String)
  | error (errorType : ErrorType) (message : String) (stackTrace : Option String)
      (requestId : Option String)
deriving DecidableEq

/-- Fields of the error variant, as the object passed whole to onError by
fold in types.ts. -/
structure ErrorFields where
  errorType : ErrorType
  message : String
  stackTrace : Option String
  requestId : Option String

namespace SerializableResult

variable {T : Type}

/-- Discriminant test, as written in the source: result.status === "success". -/
def isSuccess : SerializableResult T → Bool
  | .success _ _ _ => true
  | .error _ _ _ _ => false

/-- Accessor for the message field of either variant. -/
def messageOf : SerializableResult T → Option String
  | .success _ m _ => m
  | .error _ _ _ _ => none

/-- Accessor for the required message field of the error variant. -/
def errMessageOf : SerializableResult T → String
  | .success _ _ _ => ""
  | .error _ m _ _ => m

/-- Accessor for the errorType field (none on a success). -/
def errorTypeOf : SerializableResult T → Option ErrorType
  | .success _ _ _ => none
  | .error et _ _ _ => some et

/-- Accessor for the stackTrace field (none on a success). -/
def stackTraceOf : SerializableResult T → Option String
  | .success _ _ _ => none
  | .error _ _ st _ => st

/-- Accessor for the data field (none on an error). -/
def dataOf : SerializableResult T → Option T
  | .success d _ _ => some d
  | .error _ _ _ _ => none

end SerializableResult

variable {T TB TA U : Type}

/-- error from types.ts. The source builds the object with
stackTrace: stackTrace ?? new Error().stack and errorType (defaulted at call
sites to unexpected), and never sets requestId. The captured current stack
is the explicit argument cap. -/
def error (message : String) (stackTrace : Option String) (errorType : ErrorType)
    (cap : String) : SerializableResult T :=
  .error errorType message (some (stackTrace.getD cap)) none

/-- success from types.ts: wraps data with the optional message; requestId is
never set. -/
def success (data : T) (message : Option String) : SerializableResult T :=
  .success data message none

/-- map from types.ts. On success it returns success(fn(result.data)) with no
message argument; on error the source calls error(result.message, ) with the
stackTrace and errorType arguments both elided, so the rebuilt error has the
defaulted kind unexpected and a freshly captured stack. -/
def map (result : SerializableResult TB) (fn : TB → TA) (cap : String) :
    SerializableResult TA :=
  match result with
  | .success d _ _ => success (fn d) none
  | .error _ m _ _ => error m none .unexpected cap

/-- flatMap from types.ts. On success it returns fn(result.data); on error it
calls error(result.message, result.stackTrace, result.errorType). -/
def flatMap (result : SerializableResult TB) (fn : TB → SerializableResult TA)
    (cap : String) : SerializableResult TA :=
  match result with
  | .success d _ _ => fn d
  | .error et m st _ => error m st et cap

/-- catchResult from types.ts. On error it applies fn to the rebuilt error
result; on success it returns success(result.data, result.message). -/
def catchResult (result : SerializableResult TB)
    (fn : SerializableResult TB → SerializableResult TB) (cap : String) :
    SerializableResult TB :=
  match result with
  | .success d m _ => success d m
  | .error et m st _ => fn (error m st et cap)

/-- fold from types.ts. On success it returns onSuccess applied to the data;
on error it passes the whole error object to onError. -/
def fold {TF : Type} (result : SerializableResult T) (onSuccess : T → TF)
    (onError : ErrorFields → TF) : TF :=
  match result with
  | .success d _ _ => onSuccess d
  | .error et m st rid => onError ⟨et, m, st, rid⟩

/-- serialize from buildFunctions in types.ts: the bound closure written as
serialize: () => result simply hands back the underlying object. In the pure
model this is the identity on the underlying data. -/
def serialize (result : SerializableResult T) : SerializableResult T :=
  result

/-- deserializeResult from functions.ts: rebuilds a Result from a transport
form via the producers; note that requestId is not forwarded by either
branch. -/
def deserializeResult (result : SerializableResult T) (cap : String) :
    SerializableResult T :=
  match result with
  | .success d m _ => success d m
  | .error et m st _ => error m st et cap

/-- Characterizes the underlying data of a Result: every Result is built by
the producers success or error (directly, or through a combinator or
deserializeResult, whose outputs are again producer applications). -/
def Constructed (r : SerializableResult T) : Prop :=
  (∃ d m, r = success d m) ∨ (∃ m st et cap, r = error m st et cap)

/-- JsThrown models a raised JavaScript value as tryCatch in functions.ts
distinguishes it: either an instance of Error, whose stack field is an
optional string, or any other value. -/
inductive JsThrown where
  | jsError (stack : Option String)
  | nonError

/-- tryCatch from functions.ts, with the call fn() modelled by its outcome:
Except.ok a normal return value, Except.error a raised value. On a normal
return it wraps with success; on a raised Error e it returns
error(errMessage, e.stack); on any other raised value error(errMessage),
where errMessage is errorMessage ?? "An error occurred". -/
def tryCatch (outcome : Except JsThrown T) (errorMessage : Option String)
    (cap : String) : SerializableResult T :=
  let errMessage := errorMessage.getD "An error occurred"
  match outcome with
  | .ok v => success v none
  | .error (.jsError st) => error errMessage st .unexpected cap
  | .error .nonError => error errMessage none .unexpected cap

/-- exists from functions.ts is the type guard value !== undefined. Whether a
value of the element type T can be the JS value undefined depends on T, so
the guard restricted to T is passed explicitly as ex below. -/
def flattenErrors (ex : T → Bool) (results : List (SerializableResult T))
    (cap : String) : SerializableResult (List T) :=
  let errors := results.filter (fun r => !r.isSuccess)
  if errors.length > 0 then
    error (String.intercalate "; " (errors.map SerializableResult.errMessageOf))
      (some (String.intercalate ";\n"
        (errors.map (fun e => e.stackTraceOf.getD "No trace"))))
      .unexpected cap
  else
    success ((results.map (fun r =>
        match r with
        | .success d _ _ => some d
        | .error _ _ _ _ => none)).filterMap (fun o =>
          match o with
          | some d => if ex d then some d else none
          | none => none)) none

/-- Messages of the failing elements of a list, in input order (specification
side description, defined by direct recursion). -/
def failingMessages : List (SerializableResult T) → List String
  | [] => []
  | .success _ _ _ :: rest => failingMessages rest
  | .error _ m _ _ :: rest => m :: failingMessages rest

/-- Diagnostics of the failing elements of a list, in input order, with the
placeholder "No trace" substituted when a diagnostic is absent (specification
side description, defined by direct recursion). -/
def failingTraces : List (SerializableResult T) → List String
  | [] => []
  | .success _ _ _ :: rest => failingTraces rest
  | .error _ _ st _ :: rest => st.getD "No trace" :: failingTraces rest

/-- Data of the success elements of a list, in input order, keeping only the
values the guard ex accepts as defined (specification side description,
defined by direct recursion). -/
def keptData (ex : T → Bool) : List (SerializableResult T) → List T
  | [] => []
  | .success d _ _ :: rest =>
      if ex d then d :: keptData ex rest else keptData ex rest
  | .error _ _ _ _ :: rest => keptData ex rest

/-!
Object identity model. buildFunctions in types.ts binds every combinator and
serialize as closures over the one object named result, and serialize is
written as: serialize: () => result, returning that very object. To reason
about mutation of the returned object we model the JS heap explicitly: a
heap is a list of result objects, an address is an index into it, a Result
value is an address, and every bound function reads the heap at the address
it closed over.
-/

/-- serialize as bound by buildFunctions: () => result returns the captured
object itself, that is, the same address. -/
def serializeAddr (addr : Nat) : Nat :=
  addr

/-- Mutation of the object at an address: the heap with that cell replaced. -/
def writeHeap (h : List (SerializableResult T)) (addr : Nat)
    (v : SerializableResult T) : List (SerializableResult T) :=
  h.set addr v

/-- fold as bound by buildFunctions, reading the underlying object from the
heap at the address the closure captured (dflt is returned only for a
dangling address, which cannot arise for a live Result). -/
def foldAt {TF : Type} (h : List (SerializableResult T)) (addr : Nat)
    (onSuccess : T → TF) (onError : ErrorFields → TF) (dflt : TF) : TF :=
  match h.get? addr with
  | some r => fold r onSuccess onError
  | none => dflt

/-- C8: the error-kind-to-status mapping is total over the closed ErrorKind
enumeration, yields exactly the documented codes (unexpected 503,
user-validation 400, unauthorized 401, not-found 404), and produces no other
status code for any kind. -/
theorem statusFromErrorType_table :
    statusFromErrorType .unexpected = 503
      ∧ statusFromErrorType .userValidation = 400
      ∧ statusFromErrorType .unauthorized = 401
      ∧ statusFromErrorType .notFound = 404
      ∧ ∀ et : ErrorType,
          statusFromErrorType et = 503 ∨ statusFromErrorType et = 400
            ∨ statusFromErrorType et = 401 ∨ statusFromErrorType et = 404 := by
  refine ⟨rfl, rfl, rfl, rfl, ?_⟩
  intro et
  cases et <;> simp [statusFromErrorType]

/-- C9: mapping a success that carries a message rebuilds the success from the
transformed data alone; the resulting Result, and hence its serialized form,
has no message. -/
theorem map_drops_success_message (TB TA : Type) (d : TB) (m : String)
    (rid : Option String) (fn : TB → TA) (cap : String) :
    map (SerializableResult.success d (some m) rid) fn cap
        = SerializableResult.success (fn d) none none
      ∧ (serialize (map (SerializableResult.success d (some m) rid) fn cap)).messageOf
        = none :=
  ⟨rfl, rfl⟩

/-- C1 counterexample: the claim that map forwards an error with the same
errorType and diagnostic fails. For the concrete user-validation error below,
map rebuilds the error with kind unexpected and a freshly captured stack. -/
theorem map_error_not_preserved :
    ¬ ((map (SerializableResult.error .userValidation "boom" (some "t0") none)
            (fun n : Nat => n + 1) "c1").errorTypeOf
          = (SerializableResult.error (T := Nat) .userValidation "boom" (some "t0")
              none).errorTypeOf
        ∧ (map (SerializableResult.error .userValidation "boom" (some "t0") none)
            (fun n : Nat => n + 1) "c1").stackTraceOf
          = (SerializableResult.error (T := Nat) .userValidation "boom" (some "t0")
              none).stackTraceOf) := by
  decide

/-- C1 (amended): for every error-variant Result, neither map nor flatMap
invokes fn, and both forward the message; flatMap additionally forwards the
errorType and keeps the existing diagnostic (capturing a fresh stack only
when the diagnostic is absent), while map resets the errorType to unexpected
and always captures a fresh diagnostic. -/
theorem error_short_circuit (TB TA : Type) (et : ErrorType) (m : String)
    (st : Option String) (rid : Option String) (fn fn' : TB → TA)
    (g g' : TB → SerializableResult TA) (cap : String) :
    map (SerializableResult.error et m st rid) fn cap
        = SerializableResult.error .unexpected m (some cap) none
      ∧ map (SerializableResult.error et m st rid) fn cap
        = map (SerializableResult.error et m st rid) fn' cap
      ∧ flatMap (SerializableResult.error et m st rid) g cap
        = SerializableResult.error et m (some (st.getD cap)) none
      ∧ flatMap (SerializableResult.error et m st rid) g cap
        = flatMap (SerializableResult.error et m st rid) g' cap :=
  ⟨rfl, rfl, rfl, rfl⟩

/-- C6 counterexample: flatMap with the success producer is not the identity.
For the concrete success below that carries a message, the message is dropped,
so the result differs from the receiver. -/
theorem flatMap_success_not_identity :
    flatMap (SerializableResult.success (1 : Nat) (some "msg") none)
        (fun v => success v none) "c"
      ≠ SerializableResult.success (1 : Nat) (some "msg") none := by
  decide

/-- C6 (amended): flatMap with the success producer preserves the status and
the data or error fields: on an error variant it forwards message, errorType
and any present diagnostic; on a success variant it keeps the data but clears
the message. -/
theorem flatMap_right_identity (T : Type) (d : T) (m : Option String)
    (rid : Option String) (et : ErrorType) (msg : String) (st : Option String)
    (rid' : Option String) (cap : String) :
    flatMap (SerializableResult.success d m rid) (fun v => success v none) cap
        = SerializableResult.success d none none
      ∧ flatMap (SerializableResult.error (T := T) et msg st rid')
          (fun v => success v none) cap
        = SerializableResult.error et msg (some (st.getD cap)) none :=
  ⟨rfl, rfl⟩

/-- C7: fold is exhaustive and exclusive: on a success it returns the value of
onSuccess applied once to the data and does not depend on onError; on an
error it returns the value of onError applied once to the error fields and
does not depend on onSuccess. -/
theorem fold_exhaustive (T TF : Type) (r : SerializableResult T) :
    (∀ d m rid, r = SerializableResult.success d m rid →
        ∀ (onS : T → TF) (onE onE' : ErrorFields → TF),
          fold r onS onE = onS d ∧ fold r onS onE = fold r onS onE')
      ∧ (∀ et m st rid, r = SerializableResult.error et m st rid →
        ∀ (onS onS' : T → TF) (onE : ErrorFields → TF),
          fold r onS onE = onE ⟨et, m, st, rid⟩ ∧ fold r onS onE = fold r onS' onE) := by
  constructor
  · rintro d m rid rfl onS onE onE'
    exact ⟨rfl, rfl⟩
  · rintro et m st rid rfl onS onS' onE
    exact ⟨rfl, rfl⟩

/-- Witness for C7 at a concrete success input. -/
theorem fold_exhaustive_witness :
    fold (SerializableResult.success (5 : Nat) none none) (fun v => v + 1)
      (fun _ => 0) = 6 :=
  ((fold_exhaustive Nat Nat (SerializableResult.success 5 none none)).1
    5 none none rfl (fun v => v + 1) (fun _ => 0) (fun _ => 0)).1

/-- C3: round-trip: for every constructed Result (success or error variant),
rehydrating its serialized form with deserializeResult is observationally
equivalent to the original under fold, for every onSuccess and onError and
whatever stack is current at rehydration time. -/
theorem deserialize_serialize_roundTrip (T TF : Type) (r : SerializableResult T)
    (hr : Constructed r) (cap' : String) (onS : T → TF) (onE : ErrorFields → TF) :
    fold (deserializeResult (serialize r) cap') onS onE = fold r onS onE := by
  rcases hr with ⟨d, m, rfl⟩ | ⟨m, st, et, cap, rfl⟩
  · rfl
  · rfl

/-- Witness for C3 at a concrete error input. -/
theorem deserialize_serialize_roundTrip_witness :
    fold (deserializeResult (serialize (error (T := Nat) "boom" (some "t") .notFound "c"))
        "c2") (fun v => v) (fun e => e.message.length)
      = fold (error (T := Nat) "boom" (some "t") .notFound "c") (fun v => v)
        (fun e => e.message.length) :=
  deserialize_serialize_roundTrip Nat Nat (error "boom" (some "t") .notFound "c")
    (Or.inr ⟨"boom", some "t", .notFound, "c", rfl⟩) "c2" (fun v => v)
    (fun e => e.message.length)

/-- C4: tryCatch totality: a normal return of value v yields the success
wrapping v; a raised Error yields an error of kind unexpected whose message
is the supplied errorMessage or the default "An error occurred" and whose
diagnostic is the stack of the raised Error when it has one (a fresh stack is
captured otherwise); a raised non-Error value yields the same error shape
with a freshly captured stack as diagnostic. -/
theorem tryCatch_totality (T : Type) (outcome : Except JsThrown T)
    (em : Option String) (cap : String) :
    (∀ v, outcome = Except.ok v →
        tryCatch outcome em cap = SerializableResult.success v none none)
      ∧ (∀ st, outcome = Except.error (JsThrown.jsError st) →
        tryCatch outcome em cap
          = SerializableResult.error .unexpected (em.getD "An error occurred")
              (some (st.getD cap)) none)
      ∧ (outcome = Except.error JsThrown.nonError →
        tryCatch outcome em cap
          = SerializableResult.error .unexpected (em.getD "An error occurred")
              (some cap) none) := by
  refine ⟨?_, ?_, ?_⟩
  · rintro v rfl
    rfl
  · rintro st rfl
    rfl
  · rintro rfl
    rfl

/-- Witness for C4 at concrete outcomes: a normal return, a raised Error with
a stack, and a raised non-Error value. -/
theorem tryCatch_totality_witness :
    tryCatch (Except.ok (7 : Nat)) none "cap"
        = SerializableResult.success 7 none none
      ∧ tryCatch (Except.error (JsThrown.jsError (some "trace")) : Except JsThrown Nat)
          (some "msg") "cap"
        = SerializableResult.error .unexpected "msg" (some "trace") none
      ∧ tryCatch (Except.error JsThrown.nonError : Except JsThrown Nat) none "cap"
        = SerializableResult.error .unexpected "An error occurred" (some "cap") none :=
  ⟨(tryCatch_totality Nat (Except.ok 7) none "cap").1 7 rfl,
    (tryCatch_totality Nat (Except.error (JsThrown.jsError (some "trace")))
      (some "msg") "cap").2.1 (some "trace") rfl,
    (tryCatch_totality Nat (Except.error JsThrown.nonError) none "cap").2.2 rfl⟩

/-- C2 counterexample: serialize does not return a structural copy. The bound
serialize closure hands back the underlying object itself (the same address),
so writing through the returned reference changes what a subsequent fold on
the original Result observes: below, fold sees 2 after the mutation instead
of the original 1. -/
theorem serialize_alias_observed :
    serializeAddr 0 = 0
      ∧ foldAt [SerializableResult.success (1 : Nat) none none] 0
          (fun v => v) (fun _ => 0) 0 = 1
      ∧ foldAt (writeHeap [SerializableResult.success (1 : Nat) none none]
            (serializeAddr 0) (SerializableResult.success 2 none none)) 0
          (fun v => v) (fun _ => 0) 0 = 2
      ∧ foldAt (writeHeap [SerializableResult.success (1 : Nat) none none]
            (serializeAddr 0) (SerializableResult.success 2 none none)) 0
          (fun v => v) (fun _ => 0) 0
        ≠ foldAt [SerializableResult.success (1 : Nat) none none] 0
            (fun v => v) (fun _ => 0) 0 :=
  ⟨rfl, rfl, rfl, by decide⟩

/-- C2 (amended): serialize returns the underlying object itself, a live
reference and not a copy: for every heap, every live address and every
mutation written through the reference serialize returns, a subsequent fold
on the original Result observes the mutated value. -/
theorem serialize_returns_live_reference (T TF : Type)
    (h : List (SerializableResult T)) (addr : Nat) (hlt : addr < h.length)
    (v : SerializableResult T) (onS : T → TF) (onE : ErrorFields → TF)
    (dflt : TF) :
    serializeAddr addr = addr
      ∧ foldAt (writeHeap h (serializeAddr addr) v) addr onS onE dflt
        = fold v onS onE := by
  refine ⟨rfl, ?_⟩
  unfold foldAt writeHeap serializeAddr
  rw [List.get?_eq_getElem?, List.getElem?_set_eq_of_lt v hlt]

/-- Witness for C2 (amended) at a concrete heap and mutation. -/
theorem serialize_returns_live_reference_witness :
    serializeAddr 0 = 0
      ∧ foldAt (writeHeap [SerializableResult.success (1 : Nat) none none]
            (serializeAddr 0) (SerializableResult.success 2 none none)) 0
          (fun v => v) (fun _ => 0) 0
        = fold (SerializableResult.success (2 : Nat) none none)
            (fun v => v) (fun _ => 0) :=
  serialize_returns_live_reference Nat Nat
    [SerializableResult.success 1 none none] 0 (by decide)
    (SerializableResult.success 2 none none) (fun v => v) (fun _ => 0) 0

/-- Unfolding of flattenErrors with the local binding inlined. -/
theorem flattenErrors_eq (T : Type) (ex : T → Bool)
    (results : List (SerializableResult T)) (cap : String) :
    flattenErrors ex results cap
      = if (results.filter fun r => !r.isSuccess).length > 0 then
          error (String.intercalate "; "
              ((results.filter fun r => !r.isSuccess).map
                SerializableResult.errMessageOf))
            (some (String.intercalate ";\n"
              ((results.filter fun r => !r.isSuccess).map
                (fun e => e.stackTraceOf.getD "No trace"))))
            .unexpected cap
        else
          success ((results.map (fun r =>
              match r with
              | .success d _ _ => some d
              | .error _ _ _ _ => none)).filterMap (fun o =>
                match o with
                | some d => if ex d then some d else none
                | none => none)) none :=
  rfl

/-- Computation rule for the discriminant on a success. -/
theorem isSuccess_success (T : Type) (d : T) (m rid : Option String) :
    (SerializableResult.success d m rid).isSuccess = true :=
  rfl

/-- Computation rule for the discriminant on an error. -/
theorem isSuccess_error (T : Type) (et : ErrorType) (m : String)
    (st rid : Option String) :
    (SerializableResult.error (T := T) et m st rid).isSuccess = false :=
  rfl

/-- Messages of the filtered failing elements coincide with the direct
recursive description. -/
theorem filter_map_errMessage (T : Type) (results : List (SerializableResult T)) :
    ((results.filter fun r => !r.isSuccess).map SerializableResult.errMessageOf)
      = failingMessages results := by
  induction results with
  | nil => rfl
  | cons r rest ih =>
      cases r with
      | success d m rid =>
          simp only [List.filter_cons, isSuccess_success, Bool.not_true,
            if_false, failingMessages, ih, Bool.false_eq_true, ite_false]
      | error et m st rid =>
          simp only [List.filter_cons, isSuccess_error, Bool.not_false, if_true,
            List.map_cons, failingMessages, ih, ite_true]
          rfl

/-- Diagnostics of the filtered failing elements, with the placeholder for an
absent trace, coincide with the direct recursive description. -/
theorem filter_map_trace (T : Type) (results : List (SerializableResult T)) :
    ((results.filter fun r => !r.isSuccess).map
        (fun e => e.stackTraceOf.getD "No trace"))
      = failingTraces results := by
  induction results with
  | nil => rfl
  | cons r rest ih =>
      cases r with
      | success d m rid =>
          simp only [List.filter_cons, isSuccess_success, Bool.not_true,
            if_false, failingTraces, ih, Bool.false_eq_true, ite_false]
      | error et m st rid =>
          simp only [List.filter_cons, isSuccess_error, Bool.not_false, if_true,
            List.map_cons, failingTraces, ih, ite_true]
          rfl

/-- The map-then-filter pipeline of the success branch coincides with the
direct recursive description of the kept data. -/
theorem filterMap_keptData (T : Type) (ex : T → Bool)
    (results : List (SerializableResult T)) :
    ((results.map (fun r =>
        match r with
        | .success d _ _ => some d
        | .error _ _ _ _ => none)).filterMap (fun o =>
          match o with
          | some d => if ex d then some d else none
          | none => none))
      = keptData ex results := by
  induction results with
  | nil => rfl
  | cons r rest ih =>
      cases r with
      | success d m rid =>
          by_cases hd : ex d <;>
            simp [List.filterMap_cons, keptData, hd, ih]
      | error et m st rid =>
          simp [List.filterMap_cons, keptData, ih]

/-- C5: flattenErrors aggregation: when at least one input is an error
variant, the output is a single error whose message is the concatenation, in
input order and with the separator "; ", of every failing message, and whose
diagnostic is the concatenation, with the separator ";\n", of every failing
diagnostic with the placeholder "No trace" substituted when absent; when no
input is an error, the output is a success carrying the data of every
success element in input order, with values the definedness guard rejects
filtered out. -/
theorem flattenErrors_aggregation (T : Type) (ex : T → Bool)
    (results : List (SerializableResult T)) (cap : String) :
    ((∃ r ∈ results, r.isSuccess = false) →
        flattenErrors ex results cap
          = SerializableResult.error .unexpected
              (String.intercalate "; " (failingMessages results))
              (some (String.intercalate ";\n" (failingTraces results))) none)
      ∧ ((∀ r ∈ results, r.isSuccess = true) →
        flattenErrors ex results cap
          = SerializableResult.success (keptData ex results) none none) := by
  constructor
  · intro hex
    obtain ⟨r, hmem, hfail⟩ := hex
    have hmemf : r ∈ results.filter fun r => !r.isSuccess :=
      List.mem_filter.mpr ⟨hmem, by simp [hfail]⟩
    have hlen : (results.filter fun r => !r.isSuccess).length > 0 :=
      List.length_pos.mpr (List.ne_nil_of_mem hmemf)
    rw [flattenErrors_eq, if_pos hlen, filter_map_errMessage, filter_map_trace]
    rfl
  · intro hall
    have hnil : (results.filter fun r => !r.isSuccess) = [] := by
      rw [List.filter_eq_nil_iff]
      intro a ha
      simp [hall a ha]
    rw [flattenErrors_eq, hnil]
    simp only [List.length_nil, gt_iff_lt, Nat.lt_irrefl, if_false]
    rw [filterMap_keptData]
    rfl

/-- Witness for C5 at the concrete inputs of the specification example: a
mixed list aggregates both failing messages in order, and an all-success
list collects the data in order. -/
theorem flattenErrors_aggregation_witness :
    flattenErrors (fun _ => true)
        [success (1 : Nat) none, error "a" (some "ta") .unexpected "c",
          success 2 none, error "b" none .userValidation "c"] "cap"
        = SerializableResult.error .unexpected "a; b" (some "ta;\nc") none
      ∧ flattenErrors (fun _ => true) [success (1 : Nat) none, success 2 none] "cap"
        = SerializableResult.success [1, 2] none none := by
  constructor
  · have h := (flattenErrors_aggregation Nat (fun _ => true)
      [success 1 none, error "a" (some "ta") .unexpected "c", success 2 none,
        error "b" none .userValidation "c"] "cap").1
      ⟨error "a" (some "ta") .unexpected "c", by simp, rfl⟩
    rw [h]
    rfl
  · have h := (flattenErrors_aggregation Nat (fun _ => true)
      [success 1 none, success 2 none] "cap").2 (by
        intro r hr
        cases hr with
        | head => rfl
        | tail _ h2 =>
            cases h2 with
            | head => rfl
            | tail _ h3 => cases h3)
    rw [h]
    rfl

/-- C10: whenever flattenErrors yields an error variant, the aggregated
errorType is unexpected, whatever the errorType values of the failing
inputs: for every input list the output either is a success or carries
errorType unexpected. -/
theorem flattenErrors_errorType_unexpected (T : Type) (ex : T → Bool)
    (results : List (SerializableResult T)) (cap : String) :
    (flattenErrors ex results cap).errorTypeOf = none
      ∨ (flattenErrors ex results cap).errorTypeOf = some .unexpected := by
  rw [flattenErrors_eq]
  split
  · right
    rfl
  · left
    rfl

end ResultTS
